import Mathlib

/-!
Verification of the go-todo service (package `todos`, final iteration:
`internal/todos/sqlite.go` for storage and the patch decoder, plus the
final HTTP handler file) against its natural-language specification.

Modelling conventions:
  * SQLite rows of the single `todos` table are a `List Todo`; the SQL
    statements of `sqlite.go` are translated operation by operation
    (`INSERT OR REPLACE` deletes the row with the conflicting primary key
    and inserts the new one; `DELETE`/`UPDATE ... WHERE id = ?` act on all
    matching rows; `SELECT ... WHERE id = ?` with `row.Scan` yields the
    first match or `sql.ErrNoRows`).
  * Go `int` is `Int` (no claim exercises 64-bit overflow).
  * JSON numbers (Go `float64`) are exact rationals `ℚ`; float64 rounding
    is out of scope, truncation `int(f)` is `goTrunc` (toward zero).
  * Bodies written by `http.Error` and `json.Encoder.Encode` both end in a
    single `\n`; response bodies are modelled without that trailing
    newline throughout (the repository's own tests compare bodies with
    `strings.TrimSpace`).
-/

/-- A Go dynamic value (`any`) as it can appear in a `map[string]any`
produced by `encoding/json.Unmarshal`: JSON null ↦ `nil`, booleans ↦
`bool`, numbers ↦ `float64`, strings ↦ `str`, arrays ↦ `arr`, nested
objects ↦ `obj`.  The constructors `ptrStr` and `ptrBool` model Go values
of dynamic type `*string` and `*bool`: they are the targets of the type
assertions `title.(*string)` / `completed.(*bool)` in
`TodoPatch.UnmarshalJSON`, and `encoding/json.Unmarshal` into
`map[string]any` never produces them. -/
inductive GoValue : Type
  | nil : GoValue
  | bool : Bool → GoValue
  | float64 : ℚ → GoValue
  | str : String → GoValue
  | arr : List GoValue → GoValue
  | obj : List (String × GoValue) → GoValue
  | ptrStr : String → GoValue
  | ptrBool : Bool → GoValue

/-- Go type assertion `v.(float64)`. -/
def GoValue.asFloat64 : GoValue → Option ℚ
  | .float64 q => some q
  | _ => none

/-- Go type assertion `v.(*string)`.  Succeeds only on dynamic type
`*string`, never on `string`. -/
def GoValue.asPtrString : GoValue → Option String
  | .ptrStr s => some s
  | _ => none

/-- Go type assertion `v.(*bool)`.  Succeeds only on dynamic type
`*bool`, never on `bool`. -/
def GoValue.asPtrBool : GoValue → Option Bool
  | .ptrBool b => some b
  | _ => none

/-- A Go `map[string]any` as filled by `json.Unmarshal`; an association
list in JSON-object key order. -/
abbrev GoMap := List (String × GoValue)

/-- Lookup `m[k]` in a Go map built by `json.Unmarshal`: with duplicate
JSON keys the later binding overwrites the earlier, so the last binding
wins. -/
def goMapGet (m : GoMap) (k : String) : Option GoValue :=
  match m with
  | [] => none
  | (k', v) :: rest =>
    match goMapGet rest k with
    | some w => some w
    | none => if k' = k then some v else none

/-- Go `int(f)` on a float64: truncation toward zero
(`Int.tdiv` is T-division, exactly Go's conversion on exact values). -/
def goTrunc (q : ℚ) : Int :=
  q.num.tdiv q.den

/-- Go struct `TodoPatch` of `internal/todos/sqlite.go`: the raw
unmarshalled map plus the sparse update descriptor (Go `*string` /
`*bool` pointer fields are `Option`; `nil` pointer = field absent). -/
structure TodoPatch : Type where
  data : GoMap
  ID : Int
  Title : Option String
  Description : Option String
  Completed : Option Bool

/-- Constructor `NewTodoPatch()`: zero-valued descriptor with an empty map. -/
def NewTodoPatch : TodoPatch :=
  { data := [], ID := 0, Title := none, Description := none, Completed := none }

/-- Method `(*TodoPatch).UnmarshalJSON` of `internal/todos/sqlite.go`, lines
28–83, applied to the already-unmarshalled generic map (the
`json.Unmarshal(b, &tp.data)` step; malformed JSON is out of scope).
Each key is inspected in source order: `id` (nil → error "id is
required", non-float64 → error, float64 → truncated into `ID`; an absent
key is skipped), then `title`, `description`, `completed` (absent →
skipped, nil → pointer to the zero value, otherwise the `.(*string)` /
`.(*bool)` assertion). -/
def TodoPatch.unmarshalJSON (m : GoMap) : Except String TodoPatch := do
  let tp₀ : TodoPatch := { NewTodoPatch with data := m }
  let tp₁ ←
    match goMapGet m "id" with
    | none => pure tp₀
    | some GoValue.nil => throw "id is required"
    | some v =>
      match v.asFloat64 with
      | none => throw "id is not a float64"
      | some q => pure { tp₀ with ID := goTrunc q }
  let tp₂ ←
    match goMapGet m "title" with
    | none => pure tp₁
    | some GoValue.nil => pure { tp₁ with Title := some "" }
    | some v =>
      match v.asPtrString with
      | none => throw "title is not a string"
      | some s => pure { tp₁ with Title := some s }
  let tp₃ ←
    match goMapGet m "description" with
    | none => pure tp₂
    | some GoValue.nil => pure { tp₂ with Description := some "" }
    | some v =>
      match v.asPtrString with
      | none => throw "description is not a string"
      | some s => pure { tp₂ with Description := some s }
  let tp₄ ←
    match goMapGet m "completed" with
    | none => pure tp₃
    | some GoValue.nil => pure { tp₃ with Completed := some false }
    | some v =>
      match v.asPtrBool with
      | none => throw "completed is not a boolean"
      | some b => pure { tp₃ with Completed := some b }
  pure tp₄

/-- Go struct `Todo` — the sole entity: id, title, description,
completed. -/
structure Todo : Type where
  ID : Int
  Title : String
  Description : String
  Completed : Bool
deriving DecidableEq

/-- The `todos` table: its list of rows (order: physical table order;
`get_all` gives no ordering guarantee). -/
abbrev Store := List Todo

/-- The storage error taxonomy: `ErrNotFound{ID}` and
`ErrNoFieldsToUpdate`. -/
inductive DBError : Type
  | notFound (id : Int) : DBError
  | noFieldsToUpdate : DBError
deriving DecidableEq

/-- Error strings: `fmt.Sprintf("todo `%d` not found", e.ID)` and
`errors.New("no fields to update")`. -/
def DBError.message : DBError → String
  | .notFound id => "todo `" ++ toString id ++ "` not found"
  | .noFieldsToUpdate => "no fields to update"

/-- Method `DB.Insert`: `INSERT OR REPLACE INTO todos (id, title, description,
completed) VALUES (?, ?, ?, ?)` — any row with the conflicting primary
key is removed and the new row inserted.  Never an error. -/
def dbInsert (s : Store) (t : Todo) : Store :=
  s.filter (fun r => decide (r.ID ≠ t.ID)) ++ [t]

/-- Method `DB.Get`: `SELECT id, title, description, completed FROM todos WHERE
id = ?` + `row.Scan`; `sql.ErrNoRows` becomes `ErrNotFound{ID: id}`. -/
def dbGet (s : Store) (id : Int) : Except DBError Todo :=
  match s.find? (fun r => decide (r.ID = id)) with
  | some t => .ok t
  | none => .error (.notFound id)

/-- Method `DB.Delete`: `DELETE FROM todos WHERE id = ?`.  Never an error, with
or without a matching row. -/
def dbDelete (s : Store) (id : Int) : Store :=
  s.filter (fun r => decide (r.ID ≠ id))

/-- A Go `[]Todo` slice: element list plus nil-ness (Go distinguishes the
nil slice from an empty non-nil slice; `json.Marshal` encodes nil as
`null`, empty non-nil as `[]`). -/
structure GoTodoSlice : Type where
  elems : List Todo
  isNil : Bool
deriving DecidableEq

/-- Method `DB.GetAll`: `SELECT id, title, description, completed FROM todos`,
scanning every row into `var todos []Todo` by `append`.  With zero rows
no `append` runs and the declared slice stays nil.  Driver errors are out
of scope (pure model), matching that the only data-dependent failure is
none. -/
def dbGetAll (s : Store) : GoTodoSlice :=
  { elems := s, isNil := s.isEmpty }

/-- The `WHERE id = ?` comparison of the dynamic UPDATE in `DB.Patch`:
the bound parameter is `patch.data["id"]` (a raw `any` from the
unmarshalled map).  A float64 binding compares numerically with the
INTEGER `id` column; binding Go `nil` binds SQL NULL, which equals no
row.  (Other dynamic types are unreachable: decode fails before `Patch`
unless `data["id"]` is absent or a float64.) -/
def rowMatchesWhereId (r : Todo) : Option GoValue → Bool
  | some (GoValue.float64 q) => decide ((r.ID : ℚ) = q)
  | _ => false

/-- The `SET` clause built by `DB.Patch`: exactly the fields whose
pointer is non-nil are assigned. -/
def applyPatchSet (p : TodoPatch) (r : Todo) : Todo :=
  { r with
    Title := p.Title.getD r.Title
    Description := p.Description.getD r.Description
    Completed := p.Completed.getD r.Completed }

/-- Method `DB.Patch` of `internal/todos/sqlite.go`, lines 187–225: collect the
non-nil fields into the SET clause; if none, return `ErrNoFieldsToUpdate`
before preparing or executing any SQL (the store is untouched);
otherwise run `UPDATE todos SET ... WHERE id = ?` with
`patch.data["id"]` as the WHERE argument, updating every matching row
(zero matches is still success). -/
def dbPatch (s : Store) (p : TodoPatch) : Except DBError Store :=
  if p.Title = none ∧ p.Description = none ∧ p.Completed = none then
    .error .noFieldsToUpdate
  else
    .ok (s.map (fun r =>
      if rowMatchesWhereId r (goMapGet p.data "id") then applyPatchSet p r else r))

/-- An HTTP response as the handler writes it: status code, body (without
the trailing newline written by `http.Error` / `Encode`), and the headers
the handler sets explicitly.  Headers written implicitly by `net/http`
(Date, sniffed Content-Type on the empty-body 200s) are not modelled. -/
structure Response : Type where
  status : Nat
  body : String
  headers : List (String × String)
deriving DecidableEq

/-- The string `http.StatusText(http.StatusInternalServerError)`. -/
def internalServerErrorText : String := "Internal Server Error"

/-- Function `http.Error(w, msg, status)`: plain-text error response.  `net/http`
sets these two headers before writing the message and a newline. -/
def httpError (msg : String) (status : Nat) : Response :=
  { status := status
    body := msg
    headers := [("Content-Type", "text/plain; charset=utf-8"),
                ("X-Content-Type-Options", "nosniff")] }

/-- Go `strconv.Atoi`: optional sign followed by at least one ASCII
digit, nothing else (int64 overflow is out of scope). -/
def goAtoi (s : String) : Option Int :=
  let digitsToNat : List Char → Nat := fun ds =>
    ds.foldl (fun acc c => acc * 10 + (c.toNat - '0'.toNat)) 0
  let core : List Char → Int → Option Int := fun ds sign =>
    if ds = [] then none
    else if ds.all Char.isDigit then some (sign * (digitsToNat ds : Int))
    else none
  match s.toList with
  | '-' :: rest => core rest (-1)
  | '+' :: rest => core rest 1
  | ds => core ds 1

/-- Helper `fromPathTodoID`: parse `r.PathValue("id")`, error
``invalid id: `{raw}` `` on failure. -/
def fromPathTodoID (rawID : String) : Except String Int :=
  match goAtoi rawID with
  | none => .error ("invalid id: `" ++ rawID ++ "`")
  | some id => .ok id

/-- Helper `assertHeaderValueIs(r, "Content-Type", "application/json")` applied
to the received Content-Type value. -/
def assertContentTypeJSON (contentType : String) : Except String Unit :=
  if contentType = "application/json" then .ok ()
  else
    .error ("invalid header `Content-Type` value: got `" ++ contentType ++
      "`, use `application/json`")

/-- JSON string escaping as `encoding/json` performs it on the
characters occurring in this development (backslash and quote; control
and non-ASCII escapes are out of scope). -/
def jsonEscape (s : String) : String :=
  String.join (s.toList.map (fun c =>
    if c = '\\' then "\\\\"
    else if c = '"' then "\\\"" else String.singleton c))

/-- Encoding `json.Marshal` of one `Todo` (field order follows the struct tags). -/
def encodeTodo (t : Todo) : String :=
  "\x7b\"id\":" ++ toString t.ID ++
    ",\"title\":\"" ++ jsonEscape t.Title ++
    "\",\"description\":\"" ++ jsonEscape t.Description ++
    "\",\"completed\":" ++ (if t.Completed then "true" else "false") ++ "\x7d"

/-- Encoding `json.Marshal` of a `[]Todo`: the nil slice encodes as `null`, a
non-nil slice as a JSON array. -/
def encodeTodoSlice (sl : GoTodoSlice) : String :=
  if sl.isNil then "null"
  else "[" ++ String.intercalate "," (sl.elems.map encodeTodo) ++ "]"

/-- Method `Handler.writeJSON`: sets `Content-Type: application/json` and
`X-Request-ID` (read back from the request context populated by the
middleware), then encodes the data; `requestID` is that context value. -/
def writeJSON (requestID : String) (encodedBody : String) : Response :=
  { status := 200
    body := encodedBody
    headers := [("Content-Type", "application/json"),
                ("X-Request-ID", requestID)] }

/-- Method `Handler.get` (final iteration): parse the path id (400 on failure),
`db.Get`, map `ErrNotFound` to 404 with its message, any other storage
error to a generic 500, success to `writeJSON` of the todo. -/
def handlerGet (s : Store) (requestID : String) (rawID : String) : Response :=
  match fromPathTodoID rawID with
  | .error msg => httpError msg 400
  | .ok id =>
    match dbGet s id with
    | .error (DBError.notFound i) => httpError (DBError.notFound i).message 404
    | .error _ => httpError internalServerErrorText 500
    | .ok t => writeJSON requestID (encodeTodo t)

/-- Method `Handler.getAll` (final iteration): `db.GetAll` then `writeJSON`
(the storage error branch is driver-level and unreachable in the pure
model). -/
def handlerGetAll (s : Store) (requestID : String) : Response :=
  writeJSON requestID (encodeTodoSlice (dbGetAll s))

/-- Method `Handler.delete` (final iteration): parse the path id (400 on
failure), `db.Delete`, and on success fall off the handler — `net/http`
then writes an implicit 200 with empty body and no handler-set
headers. -/
def handlerDelete (s : Store) (requestID : String) (rawID : String) :
    Response × Store :=
  match fromPathTodoID rawID with
  | .error msg => (httpError msg 400, s)
  | .ok id => ({ status := 200, body := "", headers := [] }, dbDelete s id)

/-- Method `Handler.insert` (PUT, final iteration): Content-Type must be
`application/json` (400), path id must parse (400), body must decode
into a `Todo` (400; the typed decode is modelled as `Option Todo`, no
claim depends on its internals), path and body ids must agree (400);
then `db.Insert` and an implicit 200 with empty body and no handler-set
headers. -/
def handlerInsert (s : Store) (requestID : String) (contentType : String)
    (rawID : String) (body : Option Todo) : Response × Store :=
  match assertContentTypeJSON contentType with
  | .error msg => (httpError msg 400, s)
  | .ok _ =>
    match fromPathTodoID rawID with
    | .error msg => (httpError msg 400, s)
    | .ok id =>
      match body with
      | none => (httpError "failed to decode todo body" 400, s)
      | some todo =>
        if id ≠ todo.ID then
          (httpError ("id in path `" ++ toString id ++ "` and body `" ++
            toString todo.ID ++ "` do not match") 400, s)
        else
          ({ status := 200, body := "", headers := [] }, dbInsert s todo)

/-- The error mapping of `Handler.patch` for a `db.Patch` failure:
`errors.Is(err, ErrNoFieldsToUpdate)` → 400 with the error's literal
message, anything else → generic 500 (after logging). -/
def patchStorageErrorResponse (e : DBError) : Response :=
  if e = DBError.noFieldsToUpdate then httpError e.message 400
  else httpError internalServerErrorText 500

/-- Method `Handler.patch` (final iteration): Content-Type must be
`application/json` (400), path id must parse (400), the body is decoded
by `TodoPatch.UnmarshalJSON` (failure → 400 with the decode error's
message), path and descriptor ids must agree (400); then `db.Patch`,
mapping its error through `patchStorageErrorResponse`, and on success an
implicit 200 with empty body and no handler-set headers. -/
def handlerPatch (s : Store) (requestID : String) (contentType : String)
    (rawID : String) (body : GoMap) : Response × Store :=
  match assertContentTypeJSON contentType with
  | .error msg => (httpError msg 400, s)
  | .ok _ =>
    match fromPathTodoID rawID with
    | .error msg => (httpError msg 400, s)
    | .ok id =>
      match TodoPatch.unmarshalJSON body with
      | .error msg => (httpError msg 400, s)
      | .ok patch =>
        if id ≠ patch.ID then
          (httpError ("id in path `" ++ toString id ++ "` and body `" ++
            toString patch.ID ++ "` do not match") 400, s)
        else
          match dbPatch s patch with
          | .error e => (patchStorageErrorResponse e, s)
          | .ok s' => ({ status := 200, body := "", headers := [] }, s')

/-- Middleware `withRequestID`: the middleware draws one token from the generator
and passes it to the inner handler through the request context. -/
def runWithRequestID (gen : Unit → String) (inner : String → Response) :
    Response :=
  inner (gen ())

/-! ### Helper lemmas -/

/-- A keyed SELECT on a store with no row at `id` scans past every row:
`DB.Get` hits `sql.ErrNoRows` and returns `ErrNotFound{id}`. -/
lemma dbGet_eq_notFound_of_absent (s : Store) (id : Int)
    (h : ∀ r ∈ s, r.ID ≠ id) : dbGet s id = .error (.notFound id) := by
  unfold dbGet
  have hfind : s.find? (fun r => decide (r.ID = id)) = none :=
    List.find?_eq_none.mpr (by intro r hr; simpa using h r hr)
  rw [hfind]

/-- Statement `DELETE ... WHERE id = ?` on a store with no row at `id` keeps every
row. -/
lemma dbDelete_eq_self_of_absent (s : Store) (id : Int)
    (h : ∀ r ∈ s, r.ID ≠ id) : dbDelete s id = s := by
  unfold dbDelete
  exact List.filter_eq_self.mpr (by intro r hr; simpa using h r hr)

/-! ### Claims -/

/-- C1: the claim says decoding a JSON object whose `title` (or
`description`) key holds a JSON string, or whose `completed` key holds a
JSON boolean, succeeds and marks the field explicit-value.  The code
contradicts it (and its own doc comment on `Handler.patch`, which
promises `{"id":1,"title":"new title"}` updates the title): the
assertions `title.(*string)` / `completed.(*bool)` test for pointer
dynamic types that `json.Unmarshal` into `map[string]any` never
produces, so every explicit string/boolean value fails decode.  This
theorem evaluates the decoder at the failing inputs. -/
theorem claim_C1_explicit_value_decode_fails :
    TodoPatch.unmarshalJSON
        [("id", GoValue.float64 1), ("title", GoValue.str "new title")] =
      .error "title is not a string" ∧
    TodoPatch.unmarshalJSON
        [("id", GoValue.float64 1), ("description", GoValue.str "d")] =
      .error "description is not a string" ∧
    TodoPatch.unmarshalJSON
        [("id", GoValue.float64 1), ("completed", GoValue.bool true)] =
      .error "completed is not a boolean" :=
  ⟨rfl, rfl, rfl⟩

/-- C2: `insert_or_replace(t)` then `get(t.id)` returns exactly `t` in
all four fields, for every prior store contents — the conflicting row,
if any, is fully replaced, with no field merging. -/
theorem claim_C2_insert_get_roundtrip (s : Store) (t : Todo) :
    dbGet (dbInsert s t) t.ID = .ok t := by
  unfold dbGet dbInsert
  have hfind : ∀ s' : Store,
      (s'.filter (fun r => decide (r.ID ≠ t.ID)) ++ [t]).find?
        (fun r => decide (r.ID = t.ID)) = some t := by
    intro s'
    induction s' with
    | nil => simp [List.find?]
    | cons r rest ih =>
      by_cases h : r.ID = t.ID
      · simpa [List.filter, h] using ih
      · simpa [List.filter, h, List.find?] using ih
  rw [hfind s]

/-- C3: for an id with no row in the store, `get(id)` fails with
`NotFound{id}`, and the GET `/todos/{id}` handler maps it to 404 with
the plain-text body ``todo `{id}` not found`` — never to 500. -/
theorem claim_C3_get_missing_is_404 (s : Store) (id : Int)
    (rawID requestID : String)
    (hAbsent : ∀ r ∈ s, r.ID ≠ id) (hPath : goAtoi rawID = some id) :
    dbGet s id = .error (.notFound id) ∧
    handlerGet s requestID rawID =
      httpError ("todo `" ++ toString id ++ "` not found") 404 ∧
    (handlerGet s requestID rawID).status ≠ 500 := by
  have hget := dbGet_eq_notFound_of_absent s id hAbsent
  have hhandler : handlerGet s requestID rawID =
      httpError ("todo `" ++ toString id ++ "` not found") 404 := by
    unfold handlerGet fromPathTodoID
    rw [hPath]
    dsimp only
    rw [hget]
    rfl
  exact ⟨hget, hhandler, by rw [hhandler]; simp [httpError]⟩

/-- C3 witness: on the empty store, GET `/todos/1` yields exactly the
404 response. -/
theorem claim_C3_witness :
    dbGet [] 1 = .error (.notFound 1) ∧
    handlerGet [] "r" "1" = httpError ("todo `" ++ toString (1 : Int) ++ "` not found") 404 ∧
    (handlerGet [] "r" "1").status ≠ 500 :=
  claim_C3_get_missing_is_404 [] 1 "1" "r" (by intro r hr; cases hr) rfl

/-- C9: `delete(id)` on a store with no row at `id` succeeds, leaves the
store unchanged, a subsequent `get(id)` still fails with `NotFound`, and
the DELETE handler answers the same 200 with empty body as for an
existing row (idempotent, not an error). -/
theorem claim_C9_delete_absent_is_noop (s : Store) (id : Int)
    (rawID requestID : String)
    (hAbsent : ∀ r ∈ s, r.ID ≠ id) (hPath : goAtoi rawID = some id) :
    dbDelete s id = s ∧
    dbGet (dbDelete s id) id = .error (.notFound id) ∧
    handlerDelete s requestID rawID =
      ({ status := 200, body := "", headers := [] }, s) := by
  have hdel := dbDelete_eq_self_of_absent s id hAbsent
  refine ⟨hdel, ?_, ?_⟩
  · rw [hdel]
    exact dbGet_eq_notFound_of_absent s id hAbsent
  · unfold handlerDelete fromPathTodoID
    rw [hPath]
    dsimp only
    rw [hdel]

/-- C9 witness: deleting id 1 from a store holding only id 2. -/
theorem claim_C9_witness :
    dbDelete [Todo.mk 2 "a" "b" false] 1 = [Todo.mk 2 "a" "b" false] ∧
    dbGet (dbDelete [Todo.mk 2 "a" "b" false] 1) 1 = .error (.notFound 1) ∧
    handlerDelete [Todo.mk 2 "a" "b" false] "r" "1" =
      ({ status := 200, body := "", headers := [] }, [Todo.mk 2 "a" "b" false]) :=
  claim_C9_delete_absent_is_noop [Todo.mk 2 "a" "b" false] 1 "1" "r"
    (by intro r hr; simp at hr; rw [hr]; decide) rfl

/-- C4: a patch descriptor carrying zero fields to set makes `DB.Patch`
fail with `ErrNoFieldsToUpdate` before any SQL (descriptor check alone,
store untouched), the PATCH handler turns exactly this error into 400
with the error's literal message "no fields to update" (shown on the
full pipeline for body `{"id":1}`, the store coming back unchanged), and
any other storage error maps to 500. -/
theorem claim_C4_no_fields_to_update (s : Store) (p : TodoPatch)
    (requestID : String) (e : DBError)
    (hT : p.Title = none) (hD : p.Description = none) (hC : p.Completed = none)
    (he : e ≠ DBError.noFieldsToUpdate) :
    dbPatch s p = .error .noFieldsToUpdate ∧
    handlerPatch s requestID "application/json" "1" [("id", GoValue.float64 1)] =
      (httpError "no fields to update" 400, s) ∧
    patchStorageErrorResponse DBError.noFieldsToUpdate =
      httpError "no fields to update" 400 ∧
    (patchStorageErrorResponse e).status = 500 := by
  refine ⟨?_, rfl, rfl, ?_⟩
  · unfold dbPatch
    rw [if_pos ⟨hT, hD, hC⟩]
  · unfold patchStorageErrorResponse
    rw [if_neg he]
    rfl

/-- C4 witness: the zero-valued descriptor on the empty store, with the
`NotFound` error standing in for "any other storage failure". -/
theorem claim_C4_witness :
    dbPatch [] NewTodoPatch = .error .noFieldsToUpdate ∧
    handlerPatch [] "r" "application/json" "1" [("id", GoValue.float64 1)] =
      (httpError "no fields to update" 400, []) ∧
    patchStorageErrorResponse DBError.noFieldsToUpdate =
      httpError "no fields to update" 400 ∧
    (patchStorageErrorResponse (DBError.notFound 0)).status = 500 :=
  claim_C4_no_fields_to_update [] NewTodoPatch "r" (DBError.notFound 0)
    rfl rfl rfl (by decide)

/-- C5: patching any store with the body `{"id":1,"description":null}`
succeeds (200, empty body) and rewrites exactly the row with id 1,
setting its description to `""` and keeping its id, title and completed
fields; every other row is returned untouched. -/
theorem claim_C5_explicit_null_resets_description (s : Store)
    (requestID : String) :
    handlerPatch s requestID "application/json" "1"
        [("id", GoValue.float64 1), ("description", GoValue.nil)] =
      ({ status := 200, body := "", headers := [] },
       s.map (fun r => if r.ID = 1 then { r with Description := "" } else r)) := by
  have hreduce : handlerPatch s requestID "application/json" "1"
      [("id", GoValue.float64 1), ("description", GoValue.nil)] =
      ({ status := 200, body := "", headers := [] },
       s.map (fun r =>
         if rowMatchesWhereId r (some (GoValue.float64 1)) then
           applyPatchSet { data := [("id", GoValue.float64 1), ("description", GoValue.nil)],
                           ID := 1, Title := none, Description := some "",
                           Completed := none } r
         else r)) := rfl
  rw [hreduce]
  refine congrArg _ (List.map_congr_left ?_)
  intro r _
  by_cases h : r.ID = 1
  · have hmatch : rowMatchesWhereId r (some (GoValue.float64 1)) = true := by
      simp [rowMatchesWhereId, h]
    rw [if_pos hmatch, if_pos h]
    rfl
  · have hmatch : rowMatchesWhereId r (some (GoValue.float64 1)) = false := by
      simp [rowMatchesWhereId, Int.cast_eq_one, h]
    rw [if_neg (by simp [hmatch]), if_neg h]

/-- C8: the claim says `get_all()` on the empty store returns a present,
non-null, length-zero collection and that the GET `/todos` body is the
encoding of an empty array.  The code returns Go's nil slice (the
`var todos []Todo` declaration is never appended to), which
`json.Encoder` encodes as `null`, not `[]`. -/
theorem claim_C8_counterexample :
    (handlerGetAll [] "r").body = "null" ∧ (handlerGetAll [] "r").body ≠ "[]" :=
  ⟨rfl, by decide⟩

/-- C8 (amended): `get_all()` on an empty store succeeds — never an
error — with a zero-length slice; but that slice is Go's nil slice, so
the GET `/todos` response on an empty store is a 200 whose body is
`null` (the JSON encoding of the nil slice), not the empty array
`[]`. -/
theorem claim_C8_empty_store_get_all (requestID : String) :
    dbGetAll [] = { elems := [], isNil := true } ∧
    (dbGetAll []).elems.length = 0 ∧
    (handlerGetAll [] requestID).status = 200 ∧
    (handlerGetAll [] requestID).body = "null" :=
  ⟨rfl, rfl, rfl, rfl⟩

/-- No integer row id equals a fractional WHERE binding: an INTEGER
column value compares numerically with a float64 parameter, and an
integer never equals a rational with denominator ≠ 1. -/
lemma rowMatchesWhereId_fractional (r : Todo) (q : ℚ) (hq : q.den ≠ 1) :
    rowMatchesWhereId r (some (GoValue.float64 q)) = false := by
  unfold rowMatchesWhereId
  simp only [decide_eq_false_iff_not]
  intro hcast
  exact hq (by rw [← hcast]; exact Rat.den_intCast r.ID)

/-- Reduction of `Handler.patch` once the Content-Type is the JSON one
and the path id parses: the pipeline continues with the decoder, the id
agreement check and `db.Patch`. -/
lemma handlerPatch_ok_parse (s : Store) (requestID rawID : String) (id : Int)
    (body : GoMap) (h : goAtoi rawID = some id) :
    handlerPatch s requestID "application/json" rawID body =
      match TodoPatch.unmarshalJSON body with
      | .error msg => (httpError msg 400, s)
      | .ok patch =>
        if id ≠ patch.ID then
          (httpError ("id in path `" ++ toString id ++ "` and body `" ++
            toString patch.ID ++ "` do not match") 400, s)
        else
          match dbPatch s patch with
          | .error e => (patchStorageErrorResponse e, s)
          | .ok s' => ({ status := 200, body := "", headers := [] }, s') := by
  unfold handlerPatch fromPathTodoID
  rw [h]
  rfl

/-- C10: a PATCH body with a fractional numeric id (denominator ≠ 1)
decodes successfully with the truncated integer in the descriptor's `ID`
(the value the handler compares with the path id), while the UPDATE's
WHERE clause receives the raw untruncated number from the data map; so
when the path id equals the truncated id, the handler reports success
(200, empty body) and every row — the row with the truncated integer id
included — is left unchanged. -/
theorem claim_C10_fractional_id_silent_noop (s : Store) (q : ℚ)
    (rawID requestID : String)
    (hfrac : q.den ≠ 1) (hPath : goAtoi rawID = some (goTrunc q)) :
    TodoPatch.unmarshalJSON
        [("id", GoValue.float64 q), ("description", GoValue.nil)] =
      .ok { data := [("id", GoValue.float64 q), ("description", GoValue.nil)],
            ID := goTrunc q, Title := none, Description := some "",
            Completed := none } ∧
    handlerPatch s requestID "application/json" rawID
        [("id", GoValue.float64 q), ("description", GoValue.nil)] =
      ({ status := 200, body := "", headers := [] }, s) := by
  refine ⟨rfl, ?_⟩
  have hpatch : dbPatch s
      { data := [("id", GoValue.float64 q), ("description", GoValue.nil)],
        ID := goTrunc q, Title := none, Description := some "",
        Completed := none } = .ok s := by
    unfold dbPatch
    rw [if_neg (by simp)]
    have hid : s.map (fun r =>
        if rowMatchesWhereId r (some (GoValue.float64 q)) then
          applyPatchSet { data := [("id", GoValue.float64 q), ("description", GoValue.nil)],
                          ID := goTrunc q, Title := none, Description := some "",
                          Completed := none } r
        else r) = s.map id := by
      refine List.map_congr_left ?_
      intro r _
      rw [rowMatchesWhereId_fractional r q hfrac]
      simp
    rw [show goMapGet [("id", GoValue.float64 q), ("description", GoValue.nil)] "id" =
        some (GoValue.float64 q) from rfl]
    rw [hid, List.map_id]
  rw [handlerPatch_ok_parse s requestID rawID (goTrunc q) _ hPath]
  rw [show TodoPatch.unmarshalJSON
        [("id", GoValue.float64 q), ("description", GoValue.nil)] =
      .ok { data := [("id", GoValue.float64 q), ("description", GoValue.nil)],
            ID := goTrunc q, Title := none, Description := some "",
            Completed := none } from rfl]
  dsimp only
  rw [if_neg (by simp)]
  rw [hpatch]

/-- The fractional JSON number 1.5 (exactly representable as a float64),
as the rational 3/2. -/
def threeHalves : ℚ := ⟨3, 2, by decide, by decide⟩

/-- C10 witness: body `{"id":1.5,"description":null}` against path
`/todos/1` on a store holding row 1 — 200, store untouched. -/
theorem claim_C10_witness :
    TodoPatch.unmarshalJSON
        [("id", GoValue.float64 threeHalves), ("description", GoValue.nil)] =
      .ok { data := [("id", GoValue.float64 threeHalves), ("description", GoValue.nil)],
            ID := goTrunc threeHalves, Title := none, Description := some "",
            Completed := none } ∧
    handlerPatch [Todo.mk 1 "t" "d" false] "r" "application/json" "1"
        [("id", GoValue.float64 threeHalves), ("description", GoValue.nil)] =
      ({ status := 200, body := "", headers := [] }, [Todo.mk 1 "t" "d" false]) :=
  claim_C10_fractional_id_silent_noop [Todo.mk 1 "t" "d" false] threeHalves
    "1" "r" (by decide) rfl

/-- C6: the claim says an absent `id` key is a decode error.  It is not:
`UnmarshalJSON` only inspects `id` when the key is present (`if ID, ok :=
tp.data["id"]; ok`), so the empty object decodes successfully, with `ID`
left at its zero value. -/
theorem claim_C6_counterexample :
    TodoPatch.unmarshalJSON [] = .ok NewTodoPatch :=
  rfl

/-- C6 (amended): an `id` key present with null fails decode with "id is
required"; an `id` key present with any non-null, non-numeric value
fails decode with "id is not a float64"; but an absent `id` key is not a
decode error — neither id error can arise (the only decode errors still
possible come from the `title`/`description`/`completed` keys) and any
successful result carries `ID = 0` (the zero value). -/
theorem claim_C6_id_validation (m : GoMap) (v : GoValue) :
    (goMapGet m "id" = some GoValue.nil →
      TodoPatch.unmarshalJSON m = .error "id is required") ∧
    (goMapGet m "id" = some v → v ≠ GoValue.nil → v.asFloat64 = none →
      TodoPatch.unmarshalJSON m = .error "id is not a float64") ∧
    (goMapGet m "id" = none →
      (∀ tp, TodoPatch.unmarshalJSON m = .ok tp → tp.ID = 0) ∧
      (∀ e, TodoPatch.unmarshalJSON m = .error e →
        e = "title is not a string" ∨ e = "description is not a string" ∨
        e = "completed is not a boolean")) := by
  refine ⟨?_, ?_, ?_⟩
  · intro h
    unfold TodoPatch.unmarshalJSON
    rw [h]
    rfl
  · intro hv hnn hnf
    unfold TodoPatch.unmarshalJSON
    rw [hv]
    cases v
    case nil => exact absurd rfl hnn
    case float64 q => simp [GoValue.asFloat64] at hnf
    all_goals rfl
  · intro h
    constructor
    · intro tp htp
      unfold TodoPatch.unmarshalJSON at htp
      rw [h] at htp
      simp only [bind, Except.bind, pure, Except.pure] at htp
      repeat' split at htp
      all_goals simp_all [NewTodoPatch]
      all_goals rw [← htp]
    · intro e he
      unfold TodoPatch.unmarshalJSON at he
      rw [h] at he
      simp only [bind, Except.bind, pure, Except.pure] at he
      repeat' split at he
      all_goals simp_all

/-- C6 witness: the amended branches at concrete inputs — null id,
string (non-numeric) id, the empty object, and an id-less object whose
`title` holds a string (the only errors left are the field ones). -/
theorem claim_C6_witness :
    TodoPatch.unmarshalJSON [("id", GoValue.nil)] = .error "id is required" ∧
    TodoPatch.unmarshalJSON [("id", GoValue.str "x")] = .error "id is not a float64" ∧
    NewTodoPatch.ID = 0 ∧
    ("title is not a string" = "title is not a string" ∨
     "title is not a string" = "description is not a string" ∨
     "title is not a string" = "completed is not a boolean") :=
  ⟨(claim_C6_id_validation [("id", GoValue.nil)] GoValue.nil).1 rfl,
   (claim_C6_id_validation [("id", GoValue.str "x")] (GoValue.str "x")).2.1 rfl
     (by intro hcontra; cases hcontra) rfl,
   ((claim_C6_id_validation [] GoValue.nil).2.2 rfl).1 NewTodoPatch rfl,
   ((claim_C6_id_validation [("title", GoValue.str "x")] GoValue.nil).2.2 rfl).2
     "title is not a string" rfl⟩

/-- C7: the claim says every successful response — PUT, PATCH and DELETE
successes with empty bodies included — carries `X-Request-ID`.  A
successful PUT refutes it: `Handler.insert` returns without writing
anything, `net/http` sends the implicit 200, and only `writeJSON` (used
by the two GETs) ever sets `X-Request-ID`; the successful response below
carries no headers at all. -/
theorem claim_C7_counterexample :
    (handlerInsert [] "req-1" "application/json" "1"
        (some (Todo.mk 1 "a" "b" false))).1 =
      { status := 200, body := "", headers := [] } :=
  rfl

/-- C7 (amended): the success responses that carry a body — GET `/todos`
and GET `/todos/{id}` — go through `writeJSON` and carry `X-Request-ID`
equal to the token the generator produced for the request; the PUT,
PATCH and DELETE empty-body successes carry a bare 200 without that
header (PATCH shown on a successful partial update,
`{"id":1,"description":null}`). -/
theorem claim_C7_request_id_on_body_responses (gen : Unit → String)
    (s : Store) (requestID rawGet rawPut rawPatch : String) (id : Int) (t u : Todo)
    (hPathGet : goAtoi rawGet = some id) (hGet : dbGet s id = .ok t)
    (hPathPut : goAtoi rawPut = some u.ID)
    (hPathPatch : goAtoi rawPatch = some 1) :
    ("X-Request-ID", gen ()) ∈
      (runWithRequestID gen (handlerGetAll s)).headers ∧
    ("X-Request-ID", requestID) ∈ (handlerGet s requestID rawGet).headers ∧
    (handlerInsert s requestID "application/json" rawPut (some u)).1 =
      { status := 200, body := "", headers := [] } ∧
    (handlerPatch s requestID "application/json" rawPatch
        [("id", GoValue.float64 1), ("description", GoValue.nil)]).1 =
      { status := 200, body := "", headers := [] } ∧
    (handlerDelete s requestID rawPut).1 =
      { status := 200, body := "", headers := [] } := by
  refine ⟨?_, ?_, ?_, ?_, ?_⟩
  · simp [runWithRequestID, handlerGetAll, writeJSON]
  · have : handlerGet s requestID rawGet = writeJSON requestID (encodeTodo t) := by
      unfold handlerGet fromPathTodoID
      rw [hPathGet]
      dsimp only
      rw [hGet]
    rw [this]
    simp [writeJSON]
  · unfold handlerInsert fromPathTodoID
    rw [hPathPut]
    dsimp only [assertContentTypeJSON]
    rw [if_pos rfl]
    dsimp only
    rw [if_neg (by simp)]
  · rw [handlerPatch_ok_parse s requestID rawPatch 1
      [("id", GoValue.float64 1), ("description", GoValue.nil)] hPathPatch]
    rfl
  · unfold handlerDelete fromPathTodoID
    rw [hPathPut]

/-- C7 witness: a one-row store; GET carries the header, PUT, PATCH and
DELETE successes do not. -/
theorem claim_C7_witness :
    ("X-Request-ID", "g") ∈
      (runWithRequestID (fun _ => "g")
        (handlerGetAll [Todo.mk 1 "a" "b" false])).headers ∧
    ("X-Request-ID", "r") ∈
      (handlerGet [Todo.mk 1 "a" "b" false] "r" "1").headers ∧
    (handlerInsert [Todo.mk 1 "a" "b" false] "r" "application/json" "2"
        (some (Todo.mk 2 "c" "d" true))).1 =
      { status := 200, body := "", headers := [] } ∧
    (handlerPatch [Todo.mk 1 "a" "b" false] "r" "application/json" "1"
        [("id", GoValue.float64 1), ("description", GoValue.nil)]).1 =
      { status := 200, body := "", headers := [] } ∧
    (handlerDelete [Todo.mk 1 "a" "b" false] "r" "2").1 =
      { status := 200, body := "", headers := [] } :=
  claim_C7_request_id_on_body_responses (fun _ => "g")
    [Todo.mk 1 "a" "b" false] "r" "1" "2" "1" 1
    (Todo.mk 1 "a" "b" false) (Todo.mk 2 "c" "d" true) rfl rfl rfl rfl
